import Mathlib

set_option autoImplicit false

/-!
Shallow embedding of pyveloedi/veloconnect.py: the VeloConnect protocol engine
(binding discovery, dual-transport dispatch with retry and error translation,
operation catalog, transaction lifecycle helpers).
-/

namespace VeloConnect

/-! ## Protocol error codes (module-level constants of veloconnect.py) -/

def ERR_NONE : Int := 200
def ERR_ANY : Int := 400
def ERR_NOT_SUPPORTED : Int := 404
def ERR_WRONG_REQUEST : Int := 405
def ERR_OLD_REQUEST : Int := 406
def ERR_UNKNOWN_USER : Int := 410
def ERR_AUTH_FAILED : Int := 411
def ERR_UNKNOWN_SELLERS_ID : Int := 415
def ERR_UNKNOWN_TRANSACTION_ID : Int := 420
def ERR_CANT_CREATE_TRANSACTION : Int := 421
def ERR_ILLEGAL_OP : Int := 430
def ERR_ILLEGAL_ISTEST : Int := 435
def ERR_INTERNAL : Int := 500
def ERR_INVALID_MAX_TRIES : Int := 513
def ERR_MAX_TRIES_REACHED : Int := 514
def ERR_MULTIPLE_ELEMENT_FOUND : Int := 460
def ERR_ELEMENT_NOT_FOUND : Int := 461

/-- The ERR_CODES dictionary: fixed catalog of error messages, keyed by code. -/
def ERR_CODES : List (Int × String) :=
  [(ERR_ANY, "General error."),
   (ERR_NOT_SUPPORTED, "Request not supported."),
   (ERR_WRONG_REQUEST, "Wrong request."),
   (ERR_OLD_REQUEST, "Wrong request. (Old version)"),
   (ERR_UNKNOWN_USER, "Unknown user."),
   (ERR_AUTH_FAILED, "Authentication failed."),
   (ERR_UNKNOWN_SELLERS_ID, "Unknown sellers ID"),
   (ERR_UNKNOWN_TRANSACTION_ID, "Unknown transaction ID"),
   (ERR_CANT_CREATE_TRANSACTION, "Can't create further transactions."),
   (ERR_ILLEGAL_OP, "Operation not possible in current transaction state."),
   (ERR_ILLEGAL_ISTEST, "IsTest not allowed in current transaction state."),
   (ERR_INTERNAL, "Internal error."),
   (ERR_INVALID_MAX_TRIES, "Max tries values should be greater than 0."),
   (ERR_MAX_TRIES_REACHED, "Max tries reached."),
   (ERR_MULTIPLE_ELEMENT_FOUND, "More than one elements found."),
   (ERR_ELEMENT_NOT_FOUND, "Element not found")]

/-- VeloConnectException carries the protocol code and the formatted message. -/
structure VeloConnectException where
  code : Int
  msg : String
  deriving DecidableEq, Repr

/-- VeloConnectException.__init__ sets the message via the dictionary lookup
ERR_CODES[code] followed by the fixed " (Code: %d)" suffix. A code absent from
ERR_CODES makes that lookup fail (Python raises KeyError, an untyped error,
and no exception object is constructed); this is modelled as none. -/
def mkVeloConnectException (code : Int) : Option VeloConnectException :=
  (ERR_CODES.lookup code).map fun m => ⟨code, m ++ " (Code: " ++ toString code ++ ")"⟩

/-! ## Binding resolver: GetProfile.get_params -/

/-- One vcp:Implements entry of the capability document: the text of its
vcp:Binding child, the text of its optional vcp:URI child (none when the node is
absent or empty), and the operation name, i.e. the text of its vcp:Transaction
child when present, else of its vcp:Operation child. -/
structure Implement where
  binding : String
  uri : Option String
  opName : String
  deriving DecidableEq, Repr

/-- Evaluation of the Python expression
`uri is not None and uri.text or self._ctx._url`: the URI node's text when
present and truthy (non-empty), the session's base URL otherwise. -/
def uriText (url : String) (e : Implement) : String :=
  match e.uri with
  | some t => if t = "" then url else t
  | none => url

/-- The test `binding.text in ('XML-POST', 'XML-POST-S')`. -/
def isXmlPost (b : String) : Bool :=
  b == "XML-POST" || b == "XML-POST-S"

/-- The binding table built by GetProfile.get_params: a finite map from operation
name to (binding kind, endpoint URI), modelled as a lookup function. -/
abbrev BindingTable := String → Option (String × String)

/-- The body of the for-loop of GetProfile.get_params, processing one Implements
entry against the current dictionary: an XML-POST / XML-POST-S entry is always
stored (overwriting), any other entry is stored only when the operation name is
not yet a key. -/
def getParamsStep (url : String) (d : BindingTable) (e : Implement) : BindingTable :=
  if isXmlPost e.binding then
    fun k => if k = e.opName then some ("XML-POST", uriText url e) else d k
  else if (d e.opName).isNone then
    fun k => if k = e.opName then some (e.binding, uriText url e) else d k
  else d

/-- GetProfile.get_params: folds the Implements entries of the capability
document, in document order, into the binding table. -/
def get_params (url : String) (implements : List Implement) : BindingTable :=
  implements.foldl (getParamsStep url) (fun _ => none)

/-- Last element of a list satisfying a predicate, if any. -/
def lastP {α : Type} (p : α → Bool) : List α → Option α
  | [] => none
  | e :: t =>
    match lastP p t with
    | some x => some x
    | none => if p e then some e else none

/-- First element of a list satisfying a predicate, if any. -/
def firstP {α : Type} (p : α → Bool) : List α → Option α
  | [] => none
  | e :: t => if p e then some e else firstP p t

/-- The resolved entry the table actually holds for an operation name: the last
XML-POST/XML-POST-S entry for that name when one exists (binding recorded as
"XML-POST"), otherwise the first entry of any kind for that name, otherwise
nothing. -/
def resolvedEntry (url : String) (implements : List Implement) (op : String) :
    Option (String × String) :=
  match lastP (fun e => e.opName == op && isXmlPost e.binding) implements with
  | some e => some ("XML-POST", uriText url e)
  | none =>
    match firstP (fun e => e.opName == op) implements with
    | some e => some (e.binding, uriText url e)
    | none => none

theorem getParamsStep_ne (url : String) (d : BindingTable) (e : Implement) (op : String)
    (h : ¬ op = e.opName) : getParamsStep url d e op = d op := by
  unfold getParamsStep
  by_cases hx : isXmlPost e.binding
  · simp [hx, h]
  · by_cases hd : (d e.opName).isNone <;> simp [hx, hd, h]

theorem get_params_foldl_eq (url : String) (op : String) (l : List Implement) :
    ∀ d : BindingTable,
      (l.foldl (getParamsStep url) d) op =
        match lastP (fun e => e.opName == op && isXmlPost e.binding) l with
        | some e => some ("XML-POST", uriText url e)
        | none =>
          if (d op).isSome then d op
          else
            match firstP (fun e => e.opName == op) l with
            | some e => some (e.binding, uriText url e)
            | none => d op := by
  induction l with
  | nil =>
    intro d
    cases h : (d op).isSome <;> simp [lastP, firstP, h]
  | cons e t ih =>
    intro d
    rw [List.foldl_cons, ih]
    by_cases hop : e.opName = op
    · by_cases hx : isXmlPost e.binding = true
      · have hdop : getParamsStep url d e op = some ("XML-POST", uriText url e) := by
          simp [getParamsStep, hx, hop.symm]
        cases hl : lastP (fun x => x.opName == op && isXmlPost x.binding) t with
        | some ex => simp [lastP, hl, hop, hx]
        | none => simp [lastP, hl, hop, hx, hdop]
      · have hxf : isXmlPost e.binding = false := by
          cases hxx : isXmlPost e.binding
          · rfl
          · exact absurd hxx hx
        cases hl : lastP (fun x => x.opName == op && isXmlPost x.binding) t with
        | some ex => simp [lastP, hl, hop, hxf]
        | none =>
          cases hd : d op with
          | none =>
            have hdop : getParamsStep url d e op = some (e.binding, uriText url e) := by
              simp [getParamsStep, hxf, hop.symm, hop ▸ hd]
            simp [lastP, firstP, hl, hop, hxf, hd, hdop]
          | some v =>
            have hdop : getParamsStep url d e op = some v := by
              simp [getParamsStep, hxf, hop.symm, hop ▸ hd, hd]
            simp [lastP, firstP, hl, hop, hxf, hd, hdop]
    · have hdop : getParamsStep url d e op = d op :=
        getParamsStep_ne url d e op (fun h => hop h.symm)
      have hpe : (e.opName == op) = false := by
        simp [hop]
      cases hl : lastP (fun x => x.opName == op && isXmlPost x.binding) t with
      | some ex => simp [lastP, hl, hpe]
      | none =>
        cases hf : firstP (fun x => x.opName == op) t with
        | some e0 => simp [lastP, firstP, hl, hf, hpe, hdop]
        | none => simp [lastP, firstP, hl, hf, hpe, hdop]

/-- The resolved table agrees with resolvedEntry at every operation name. -/
theorem get_params_eq_resolvedEntry (url : String) (implements : List Implement)
    (op : String) : get_params url implements op = resolvedEntry url implements op := by
  unfold get_params resolvedEntry
  rw [get_params_foldl_eq]
  cases lastP (fun e => e.opName == op && isXmlPost e.binding) implements with
  | some e => rfl
  | none =>
    cases firstP (fun e => e.opName == op) implements with
    | some e => rfl
    | none => rfl

/-- C1: Binding-table construction. The claim as frozen is false: among several
XML-BODY entries for the same operation name, the code overwrites on every
XML-POST/XML-POST-S entry, so the last-seen XML-BODY entry's URI wins, not the
first-seen one's. A capability document carrying two XML-POST entries for "Op"
with URIs "u1" then "u2" resolves "Op" to URI "u2", not to the first-seen "u1". -/
theorem c1_counterexample :
    get_params "base" [⟨"XML-POST", some "u1", "Op"⟩, ⟨"XML-POST", some "u2", "Op"⟩] "Op"
      = some ("XML-POST", "u2")
    ∧ get_params "base" [⟨"XML-POST", some "u1", "Op"⟩, ⟨"XML-POST", some "u2", "Op"⟩] "Op"
      ≠ some ("XML-POST", "u1") := by
  constructor
  · rfl
  · decide

/-- C1 (amended): the binding table resolves every operation name to the last-seen
XML-BODY (XML-POST / XML-POST-S) entry when the capability document offers one for
that name — hence XML-BODY always wins over URL-ENCODED regardless of document
order — and otherwise to the first-seen entry of any other binding kind (with its
URI); names with no entry stay unresolved. -/
theorem c1_binding_precedence (url : String) (implements : List Implement)
    (op : String) : get_params url implements op = resolvedEntry url implements op :=
  get_params_eq_resolvedEntry url implements op

/-! ## Request/response dispatcher: Context.dispatch_request -/

/-- A well-formed response envelope: the integer text of its single
vct:ResponseCode node, plus an abstract payload distinguishing distinct
response bodies. -/
structure Envelope where
  code : Int
  payload : Nat
  deriving DecidableEq, Repr

/-- The retry loop of Context.dispatch_request. The transport argument models one
HTTP round-trip per attempt (query_post or query_get of the same rendered
request): attempt i yields some envelope when the returned body parses as
well-formed XML, and none when etree.fromstring raises XMLSyntaxError. The fuel
argument is the number of loop iterations still allowed (maxTries - ntry).
Returns (number of attempts issued, final value of ntry, the parsed root if the
loop ended with break). -/
def fetchLoop (transport : Nat → Option Envelope) : Nat → Nat → Nat × Nat × Option Envelope
  | ntry, 0 => (0, ntry, none)
  | ntry, fuel + 1 =>
    match transport ntry with
    | some env => (1, ntry, some env)
    | none =>
      let r := fetchLoop transport (ntry + 1) fuel
      (r.1 + 1, r.2.1, r.2.2)

/-- The response-code translation step at the end of Context.dispatch_request,
once a well-formed envelope is obtained: any code other than 200 raises
VeloConnectException with that code, code 200 returns the root. -/
def translateResponse (env : Envelope) : Except Int Envelope :=
  if env.code ≠ ERR_NONE then .error env.code else .ok env

/-- Context.dispatch_request, over an abstract transport. supported models the
membership test `request._name in self._params`; maxTries models
MAX_FETCH_TRIES (3 in the class, an arbitrary integer here to cover the
configuration check). Returns the number of transport attempts issued together
with the outcome: the well-formed envelope on success, or the code of the
raised VeloConnectException. The retry loop runs while ntry < maxTries, and
exiting it without a parsed root (ntry == maxTries) raises
ERR_MAX_TRIES_REACHED. -/
def dispatch_request (supported : Bool) (maxTries : Int)
    (transport : Nat → Option Envelope) : Nat × Except Int Envelope :=
  if supported = false then (0, .error ERR_NOT_SUPPORTED)
  else if maxTries ≤ 0 then (0, .error ERR_INVALID_MAX_TRIES)
  else
    match fetchLoop transport 0 maxTries.toNat with
    | (calls, _, none) => (calls, .error ERR_MAX_TRIES_REACHED)
    | (calls, _, some env) => (calls, translateResponse env)

theorem fetchLoop_allFail (transport : Nat → Option Envelope)
    (h : ∀ i, transport i = none) :
    ∀ (fuel ntry : Nat), fetchLoop transport ntry fuel = (fuel, ntry + fuel, none) := by
  intro fuel
  induction fuel with
  | zero => intro ntry; simp [fetchLoop]
  | succ f ihf =>
    intro ntry
    simp only [fetchLoop, h ntry, ihf (ntry + 1)]
    rw [show ntry + 1 + f = ntry + (f + 1) by omega]

theorem fetchLoop_firstSuccess (transport : Nat → Option Envelope) (env : Envelope) :
    ∀ (k fuel ntry : Nat), (∀ i, i < k → transport (ntry + i) = none) →
      transport (ntry + k) = some env → k < fuel →
      fetchLoop transport ntry fuel = (k + 1, ntry + k, some env) := by
  intro k
  induction k with
  | zero =>
    intro fuel ntry _hmal hk hfuel
    cases fuel with
    | zero => omega
    | succ f => simp only [fetchLoop]; rw [show ntry + 0 = ntry from rfl] at hk; simp [hk]
  | succ k ihk =>
    intro fuel ntry hmal hk hfuel
    cases fuel with
    | zero => omega
    | succ f =>
      have h0 : transport ntry = none := by
        have := hmal 0 (Nat.succ_pos k)
        simpa using this
      have hrec : fetchLoop transport (ntry + 1) f = (k + 1, ntry + 1 + k, some env) := by
        apply ihk
        · intro i hi
          have := hmal (i + 1) (by omega)
          rw [show ntry + 1 + i = ntry + (i + 1) by omega]
          exact this
        · rw [show ntry + 1 + k = ntry + (k + 1) by omega]
          exact hk
        · omega
      simp only [fetchLoop, h0, hrec]
      rw [show ntry + 1 + k = ntry + (k + 1) by omega]

/-- C2: Retry bound. For every retry budget N >= 1: (a) a transport whose body
never parses as well-formed XML makes dispatch issue exactly N attempts and then
fail with ERR_MAX_TRIES_REACHED (code 514); (b) malformed bodies on attempts
1..N-1 and a well-formed body on attempt N make dispatch issue exactly N
attempts and use attempt N's envelope — returning it when its code is 200;
(c) a well-formed envelope is never retried: if the first attempt already
parses, with a non-200 code, dispatch stops after exactly 1 attempt and raises
that code. -/
theorem c2_retry_bound (N : Int) (hN : 1 ≤ N) :
    (∀ transport : Nat → Option Envelope, (∀ i, transport i = none) →
       dispatch_request true N transport = (N.toNat, .error ERR_MAX_TRIES_REACHED))
    ∧ (∀ (transport : Nat → Option Envelope) (env : Envelope),
         (∀ i, i + 1 < N.toNat → transport i = none) →
         transport (N.toNat - 1) = some env →
         dispatch_request true N transport
           = (N.toNat, if env.code = ERR_NONE then .ok env else .error env.code))
    ∧ (∀ (transport : Nat → Option Envelope) (env : Envelope),
         transport 0 = some env → env.code ≠ ERR_NONE →
         dispatch_request true N transport = (1, .error env.code)) := by
  have hNpos : ¬ N ≤ 0 := by omega
  have hNnat : 1 ≤ N.toNat := by omega
  refine ⟨?_, ?_, ?_⟩
  · intro transport hmal
    simp only [dispatch_request, hNpos, if_false, Bool.true_eq_false, if_neg, ite_false]
    rw [fetchLoop_allFail transport hmal N.toNat 0]
  · intro transport env hmal hlast
    have hfl : fetchLoop transport 0 N.toNat = (N.toNat - 1 + 1, 0 + (N.toNat - 1), some env) := by
      apply fetchLoop_firstSuccess transport env (N.toNat - 1) N.toNat 0
      · intro i hi
        simpa using hmal i (by omega)
      · simpa using hlast
      · omega
    simp only [dispatch_request, hNpos, if_false, Bool.true_eq_false, if_neg, ite_false]
    rw [hfl]
    have : N.toNat - 1 + 1 = N.toNat := by omega
    rw [this]
    unfold translateResponse
    by_cases hc : env.code = ERR_NONE <;> simp [hc]
  · intro transport env h0 hcode
    have hfl : fetchLoop transport 0 N.toNat = (0 + 1, 0 + 0, some env) := by
      apply fetchLoop_firstSuccess transport env 0 N.toNat 0
      · intro i hi; omega
      · simpa using h0
      · omega
    simp only [dispatch_request, hNpos, if_false, Bool.true_eq_false, if_neg, ite_false]
    rw [hfl]
    simp [translateResponse, hcode]

/-- C2 witness: with budget 3, an always-malformed transport gives exactly 3
attempts and code 514; malformed twice then a code-200 body gives exactly 3
attempts and success with attempt 3's body; a first-attempt well-formed code-410
body gives exactly 1 attempt and the protocol failure 410. -/
theorem c2_retry_bound_witness :
    dispatch_request true 3 (fun _ => none) = (3, .error ERR_MAX_TRIES_REACHED)
    ∧ dispatch_request true 3 (fun i => if i < 2 then none else some ⟨200, 7⟩)
        = (3, .ok ⟨200, 7⟩)
    ∧ dispatch_request true 3 (fun _ => some ⟨410, 9⟩) = (1, .error 410) := by
  refine ⟨?_, ?_, ?_⟩
  · exact (c2_retry_bound 3 (by norm_num)).1 (fun _ => none) (fun _ => rfl)
  · have h := (c2_retry_bound 3 (by norm_num)).2.1
      (fun i => if i < 2 then none else some ⟨200, 7⟩) ⟨200, 7⟩
      (fun i hi => by
        have : i < 2 := by omega
        simp [this])
      (by decide)
    simpa using h
  · exact (c2_retry_bound 3 (by norm_num)).2.2 (fun _ => some ⟨410, 9⟩) ⟨410, 9⟩ rfl
      (by norm_num [ERR_NONE])

/-- C3: Response-code translation. The claim as frozen is false: a non-200 code
outside the fixed catalog does not raise a typed failure with a generic message —
VeloConnectException.__init__ performs the dictionary lookup ERR_CODES[code],
which for a code such as 999 has no entry, so the constructor itself dies with an
untyped missing-key error (modelled: mkVeloConnectException yields none). -/
theorem c3_counterexample :
    translateResponse ⟨999, 0⟩ = .error 999 ∧ mkVeloConnectException 999 = none := by
  constructor
  · rfl
  · decide

/-- C3 (amended): dispatch returns a well-formed envelope unchanged when its code
is 200 and raises the code otherwise; constructing the raised
VeloConnectException succeeds exactly for codes in the ERR_CODES catalog,
carrying the code and its fixed message (with the " (Code: %d)" suffix), while a
code outside the catalog makes the constructor's dictionary lookup fail
(an untyped missing-key error, not a typed failure). -/
theorem c3_response_code_translation (env : Envelope) (c : Int) (m : String) :
    (env.code = ERR_NONE → translateResponse env = .ok env)
    ∧ (env.code ≠ ERR_NONE → translateResponse env = .error env.code)
    ∧ (ERR_CODES.lookup c = some m →
        mkVeloConnectException c = some ⟨c, m ++ " (Code: " ++ toString c ++ ")"⟩)
    ∧ (ERR_CODES.lookup c = none → mkVeloConnectException c = none) := by
  refine ⟨?_, ?_, ?_, ?_⟩
  · intro h; simp [translateResponse, h]
  · intro h; simp [translateResponse, h]
  · intro h; simp [mkVeloConnectException, h]
  · intro h; simp [mkVeloConnectException, h]

/-- C3 witness: code 200 returns the envelope; code 410 raises 410; the exception
for 410 carries the fixed "Unknown user." message; code 777 is outside the
catalog and no exception value can be built. -/
theorem c3_witness :
    translateResponse ⟨200, 5⟩ = .ok ⟨200, 5⟩
    ∧ translateResponse ⟨410, 5⟩ = .error 410
    ∧ mkVeloConnectException 410
        = some ⟨410, "Unknown user." ++ " (Code: " ++ toString (410 : Int) ++ ")"⟩
    ∧ mkVeloConnectException 777 = none := by
  refine ⟨(c3_response_code_translation ⟨200, 5⟩ 410 "Unknown user.").1 rfl,
          (c3_response_code_translation ⟨410, 5⟩ 410 "Unknown user.").2.1 (by decide),
          (c3_response_code_translation ⟨410, 5⟩ 410 "Unknown user.").2.2.1 (by decide),
          (c3_response_code_translation ⟨410, 5⟩ 777 "x").2.2.2 (by decide)⟩

/-! ## Operation catalog: request renderings -/

/-- XML element tags used by the operation renderings, named after the
ElementMaker builders of veloconnect.py (each carries its namespace there). -/
inductive Tag where
  | BuyersID | Credential | Password | TransactionID | RollbackRequest | IsTest
  | GetItemDetailsRequest | GetItemDetailsListRequest | RequestEntry
  | CreateOrderRequest | OrderRequestLine | ViewOrderRequest | UpdateOrderRequest
  | FinishOrderRequest
  | SellersItemIdentification | ID | Quantity
  | CreateTextSearchRequest | SearchString | SearchResultRequest | StartIndex
  | Count | ResultFormat | GetClassificationSchemeRequest
  deriving DecidableEq, Repr

/-- An XML tree: an element with a tag and ordered children, or a text node. -/
inductive Xml where
  | elem (tag : Tag) (children : List Xml)
  | text (s : String)

/-- A value appearing in a URL parameter list (Python passes strings, ints and
bools to requests/urlencode). -/
inductive PyVal where
  | s (v : String)
  | i (v : Int)
  | b (v : Bool)
  deriving DecidableEq, Repr

/-- The session state a rendering depends on: Context.__init__ stores the
endpoint URL, the credentials, the test-mode flag and the use-objects flag. -/
structure Context where
  url : String
  userid : String
  passwd : String
  istest : Bool
  use_objects : Bool

/-- Python str(int(b)), used for the text of the IsTest element. -/
def pyIntStr (b : Bool) : String := if b then "1" else "0"

/-- Operation.__init__: the implicit authentication child elements
(_xml_auth = [BuyersID(userid), Credential(Password(passwd))]) shared by every
XML rendering. -/
def xml_auth (ctx : Context) : List Xml :=
  [.elem .BuyersID [.text ctx.userid],
   .elem .Credential [.elem .Password [.text ctx.passwd]]]

/-- Operation.__init__: the IsTest child element (_xml_istest). -/
def xml_istest (ctx : Context) : Xml := .elem .IsTest [.text (pyIntStr ctx.istest)]

/-- Context.query_get: every URL-encoded GET request gets the three implicit
parameters appended after the operation's own parameters. -/
def query_get_params (ctx : Context) (params : List (String × PyVal)) :
    List (String × PyVal) :=
  params ++ [("BuyersID", .s ctx.userid), ("Password", .s ctx.passwd),
             ("IsTest", .b ctx.istest)]

/-- Rollback.get_xml -/
def rollback_get_xml (ctx : Context) (tan : String) : Xml :=
  .elem .RollbackRequest (xml_auth ctx ++ [.elem .TransactionID [.text tan]])

/-- Rollback.get_url_args -/
def rollback_get_url_args (tan : String) : List (String × PyVal) :=
  [("RequestName", .s "RollbackRequest"), ("TransactionID", .s tan)]

/-- GetItemDetails.get_xml -/
def getItemDetails_get_xml (ctx : Context) (code : String) : Xml :=
  .elem .GetItemDetailsRequest
    (xml_auth ctx ++ [.elem .SellersItemIdentification [.elem .ID [.text code]]])

/-- GetItemDetails.get_url_args -/
def getItemDetails_get_url_args (code : String) : List (String × PyVal) :=
  [("RequestName", .s "GetItemDetailsRequest"), ("SellersItemIdentification", .s code)]

/-- GetItemDetailsList.get_xml -/
def getItemDetailsList_get_xml (ctx : Context) (codes : List String) : Xml :=
  .elem .GetItemDetailsListRequest
    (xml_auth ctx ++ codes.map fun code =>
      .elem .RequestEntry [.elem .SellersItemIdentification [.elem .ID [.text code]]])

/-- GetItemDetailsList.get_url_args -/
def getItemDetailsList_get_url_args (codes : List String) : List (String × PyVal) :=
  ("RequestName", .s "GetItemDetailsListRequest")
    :: codes.map fun code => ("SellersItemIdentification", PyVal.s code)

/-- CreateTextSearch.get_xml; the SearchString child is present only when the
keywords value is truthy (non-empty). -/
def createTextSearch_get_xml (ctx : Context) (keywords : String) : Xml :=
  .elem .CreateTextSearchRequest
    (xml_auth ctx
      ++ if keywords != "" then [.elem .SearchString [.text keywords]] else [])

/-- CreateTextSearch.get_url_args -/
def createTextSearch_get_url_args (keywords : String) : List (String × PyVal) :=
  ("RequestName", .s "CreateTextSearchRequest")
    :: if keywords != "" then [("SearchString", PyVal.s keywords)] else []

/-- SearchResult.get_xml (ResultFormat ID_ONLY) -/
def searchResult_get_xml (ctx : Context) (tan : String) (offset limit : Int) : Xml :=
  .elem .SearchResultRequest
    (xml_auth ctx ++
      [.elem .TransactionID [.text tan],
       .elem .StartIndex [.text (toString offset)],
       .elem .Count [.text (toString limit)],
       .elem .ResultFormat [.text "ID_ONLY"]])

/-- SearchResult.get_url_args (ResultFormat ID_ONLY) -/
def searchResult_get_url_args (tan : String) (offset limit : Int) :
    List (String × PyVal) :=
  [("RequestName", .s "SearchResultRequest"), ("TransactionID", .s tan),
   ("StartIndex", .i offset), ("Count", .i limit), ("ResultFormat", .s "ID_ONLY")]

/-- SearchReadResult.get_xml (ResultFormat ITEM_DETAIL) -/
def searchReadResult_get_xml (ctx : Context) (tan : String) (offset limit : Int) : Xml :=
  .elem .SearchResultRequest
    (xml_auth ctx ++
      [.elem .TransactionID [.text tan],
       .elem .StartIndex [.text (toString offset)],
       .elem .Count [.text (toString limit)],
       .elem .ResultFormat [.text "ITEM_DETAIL"]])

/-- SearchReadResult.get_url_args (ResultFormat ITEM_DETAIL) -/
def searchReadResult_get_url_args (tan : String) (offset limit : Int) :
    List (String × PyVal) :=
  [("RequestName", .s "SearchResultRequest"), ("TransactionID", .s tan),
   ("StartIndex", .i offset), ("Count", .i limit), ("ResultFormat", .s "ITEM_DETAIL")]

/-- CreateOrder.get_xml: auth, then IsTest, then the order request lines. -/
def createOrder_get_xml (ctx : Context) (lines : List Xml) : Xml :=
  .elem .CreateOrderRequest (xml_auth ctx ++ [xml_istest ctx] ++ lines)

/-- UpdateOrder.get_xml: auth, TransactionID, IsTest, then the lines. -/
def updateOrder_get_xml (ctx : Context) (tan : String) (lines : List Xml) : Xml :=
  .elem .UpdateOrderRequest
    (xml_auth ctx ++ [.elem .TransactionID [.text tan], xml_istest ctx] ++ lines)

/-- ViewOrder.get_xml: auth, TransactionID, IsTest. -/
def viewOrder_get_xml (ctx : Context) (tan : String) : Xml :=
  .elem .ViewOrderRequest
    (xml_auth ctx ++ [.elem .TransactionID [.text tan], xml_istest ctx])

/-- FinishOrder.get_xml: auth, TransactionID, IsTest. -/
def finishOrder_get_xml (ctx : Context) (tan : String) : Xml :=
  .elem .FinishOrderRequest
    (xml_auth ctx ++ [.elem .TransactionID [.text tan], xml_istest ctx])

/-- FinishOrder.get_url_args -/
def finishOrder_get_url_args (tan : String) : List (String × PyVal) :=
  [("RequestName", .s "FinishOrderRequest"), ("TransactionID", .s tan)]

/-- Does the XML element have a direct child element with the given tag. -/
def hasChild (x : Xml) (t : Tag) : Bool :=
  match x with
  | .elem _ cs =>
    cs.any fun c =>
      match c with
      | .elem tag _ => tag == t
      | .text _ => false
  | .text _ => false

theorem any_map_false {α β : Type} (l : List α) (f : α → β) (p : β → Bool)
    (h : ∀ a, p (f a) = false) : (l.map f).any p = false := by
  induction l with
  | nil => rfl
  | cons x xs ih => simp only [List.map_cons, List.any_cons, h x, ih, Bool.or_self]

theorem hasChild_getItemDetailsList_IsTest (ctx : Context) (codes : List String) :
    hasChild (getItemDetailsList_get_xml ctx codes) .IsTest = false := by
  simp only [getItemDetailsList_get_xml, hasChild, List.any_append]
  rw [any_map_false _ _ _ (fun a => rfl)]
  rfl

theorem hasChild_createTextSearch_IsTest (ctx : Context) (keywords : String) :
    hasChild (createTextSearch_get_xml ctx keywords) .IsTest = false := by
  unfold createTextSearch_get_xml
  cases h : keywords != "" <;> rfl

theorem hasChild_getItemDetailsList_BuyersID (ctx : Context) (codes : List String) :
    hasChild (getItemDetailsList_get_xml ctx codes) .BuyersID = true := rfl

theorem hasChild_createTextSearch_BuyersID (ctx : Context) (keywords : String) :
    hasChild (createTextSearch_get_xml ctx keywords) .BuyersID = true := by
  unfold createTextSearch_get_xml
  cases h : keywords != "" <;> rfl

/-- C4: Implicit credentials. The claim as frozen is false for the XML-BODY
binding: the XML renderings of the search, item-lookup, search-result and
rollback requests carry the buyer identifier and the password credential but no
IsTest child element — only the order operations append _xml_istest. Concretely,
CreateTextSearch.get_xml for a test-mode session produces a document with
BuyersID and Credential children and no IsTest child. -/
theorem c4_counterexample :
    hasChild (createTextSearch_get_xml ⟨"http://x", "buyer", "pw", true, true⟩ "bikes")
        .IsTest = false
    ∧ hasChild (createTextSearch_get_xml ⟨"http://x", "buyer", "pw", true, true⟩ "bikes")
        .BuyersID = true
    ∧ hasChild (createTextSearch_get_xml ⟨"http://x", "buyer", "pw", true, true⟩ "bikes")
        .Credential = true := by
  refine ⟨?_, ?_, ?_⟩ <;> decide

/-- C4 (amended): every URL-ENCODED GET request carries the trailing implicit
parameters BuyersID, Password, IsTest (appended by query_get after the
operation's own parameters); every XML-BODY request document carries the buyer
identifier and the password credential as child elements; the test-mode flag is
a child element of the order operations' documents only (create, update, view,
finish) — the rollback, item-lookup, batch-lookup, search and search-result
documents carry no IsTest element. -/
theorem c4_implicit_credentials (ctx : Context) (ps : List (String × PyVal))
    (tan code keywords : String) (codes : List String) (offset limit : Int)
    (lines : List Xml) :
    List.IsSuffix
      [("BuyersID", PyVal.s ctx.userid), ("Password", PyVal.s ctx.passwd),
       ("IsTest", PyVal.b ctx.istest)]
      (query_get_params ctx ps)
    ∧ (hasChild (rollback_get_xml ctx tan) .BuyersID = true
        ∧ hasChild (rollback_get_xml ctx tan) .Credential = true
        ∧ hasChild (rollback_get_xml ctx tan) .IsTest = false)
    ∧ (hasChild (getItemDetails_get_xml ctx code) .BuyersID = true
        ∧ hasChild (getItemDetails_get_xml ctx code) .Credential = true
        ∧ hasChild (getItemDetails_get_xml ctx code) .IsTest = false)
    ∧ (hasChild (getItemDetailsList_get_xml ctx codes) .BuyersID = true
        ∧ hasChild (getItemDetailsList_get_xml ctx codes) .Credential = true
        ∧ hasChild (getItemDetailsList_get_xml ctx codes) .IsTest = false)
    ∧ (hasChild (createTextSearch_get_xml ctx keywords) .BuyersID = true
        ∧ hasChild (createTextSearch_get_xml ctx keywords) .Credential = true
        ∧ hasChild (createTextSearch_get_xml ctx keywords) .IsTest = false)
    ∧ (hasChild (searchResult_get_xml ctx tan offset limit) .BuyersID = true
        ∧ hasChild (searchResult_get_xml ctx tan offset limit) .Credential = true
        ∧ hasChild (searchResult_get_xml ctx tan offset limit) .IsTest = false)
    ∧ (hasChild (searchReadResult_get_xml ctx tan offset limit) .BuyersID = true
        ∧ hasChild (searchReadResult_get_xml ctx tan offset limit) .Credential = true
        ∧ hasChild (searchReadResult_get_xml ctx tan offset limit) .IsTest = false)
    ∧ (hasChild (createOrder_get_xml ctx lines) .BuyersID = true
        ∧ hasChild (createOrder_get_xml ctx lines) .Credential = true
        ∧ hasChild (createOrder_get_xml ctx lines) .IsTest = true)
    ∧ (hasChild (updateOrder_get_xml ctx tan lines) .BuyersID = true
        ∧ hasChild (updateOrder_get_xml ctx tan lines) .Credential = true
        ∧ hasChild (updateOrder_get_xml ctx tan lines) .IsTest = true)
    ∧ (hasChild (viewOrder_get_xml ctx tan) .BuyersID = true
        ∧ hasChild (viewOrder_get_xml ctx tan) .Credential = true
        ∧ hasChild (viewOrder_get_xml ctx tan) .IsTest = true)
    ∧ (hasChild (finishOrder_get_xml ctx tan) .BuyersID = true
        ∧ hasChild (finishOrder_get_xml ctx tan) .Credential = true
        ∧ hasChild (finishOrder_get_xml ctx tan) .IsTest = true) := by
  refine ⟨⟨ps, rfl⟩, ⟨rfl, rfl, rfl⟩, ⟨rfl, rfl, rfl⟩,
    ⟨hasChild_getItemDetailsList_BuyersID ctx codes, rfl,
     hasChild_getItemDetailsList_IsTest ctx codes⟩,
    ⟨hasChild_createTextSearch_BuyersID ctx keywords, ?_,
     hasChild_createTextSearch_IsTest ctx keywords⟩,
    ⟨rfl, rfl, rfl⟩, ⟨rfl, rfl, rfl⟩, ⟨rfl, rfl, rfl⟩, ⟨rfl, rfl, rfl⟩,
    ⟨rfl, rfl, rfl⟩, ⟨rfl, rfl, rfl⟩⟩
  unfold createTextSearch_get_xml
  cases h : keywords != "" <;> rfl

/-! ## Transaction lifecycle: TransactionMixin.rollback -/

/-- TransactionMixin.rollback: runs the Rollback operation and swallows only a
VeloConnectException whose code is ERR_NOT_SUPPORTED; every other failure is
re-raised. The argument is the outcome of the dispatch of the Rollback request. -/
def TransactionMixin_rollback (outcome : Except Int Envelope) : Except Int Unit :=
  match outcome with
  | .ok _ => .ok ()
  | .error c => if c != ERR_NOT_SUPPORTED then .error c else .ok ()

/-- rollback composed with the dispatcher it actually calls. -/
def rollback_via_dispatch (supported : Bool) (maxTries : Int)
    (transport : Nat → Option Envelope) : Except Int Unit :=
  TransactionMixin_rollback (dispatch_request supported maxTries transport).2

theorem dispatch_request_first_wellformed (env : Envelope)
    (transport : Nat → Option Envelope) (h0 : transport 0 = some env) :
    dispatch_request true 3 transport = (1, translateResponse env) := by
  have hfl : fetchLoop transport 0 (Int.toNat 3) = (0 + 1, 0 + 0, some env) :=
    fetchLoop_firstSuccess transport env 0 (Int.toNat 3) 0
      (fun i hi => absurd hi (Nat.not_lt_zero i)) (by simpa using h0) (by norm_num)
  simp only [dispatch_request, Bool.true_eq_false, if_false, show ¬ (3 : Int) ≤ 0 by norm_num,
    ite_false]
  rw [hfl]

/-- C5: Rollback tolerance. When the dispatch of the Rollback request fails with
the not-supported protocol error (code 404), rollback returns normally; when it
fails with any other code — for example 500, internal error — that failure
propagates unchanged; a successful dispatch also returns normally. Stated both
on the outcome directly and through the dispatcher on a transport whose
well-formed envelope carries code 404 resp. 500. -/
theorem c5_rollback_tolerance (c : Int) (env : Envelope)
    (transport : Nat → Option Envelope) :
    TransactionMixin_rollback (.error ERR_NOT_SUPPORTED) = .ok ()
    ∧ (c ≠ ERR_NOT_SUPPORTED → TransactionMixin_rollback (.error c) = .error c)
    ∧ (∀ x : Envelope, TransactionMixin_rollback (.ok x) = .ok ())
    ∧ (transport 0 = some env → env.code = ERR_NOT_SUPPORTED →
        rollback_via_dispatch true 3 transport = .ok ())
    ∧ (transport 0 = some env → env.code = ERR_INTERNAL →
        rollback_via_dispatch true 3 transport = .error ERR_INTERNAL) := by
  refine ⟨rfl, ?_, fun x => rfl, ?_, ?_⟩
  · intro h
    have hb : (c != ERR_NOT_SUPPORTED) = true := bne_iff_ne.mpr h
    simp [TransactionMixin_rollback, hb]
  · intro h0 hcode
    unfold rollback_via_dispatch
    rw [dispatch_request_first_wellformed env transport h0]
    simp [translateResponse, TransactionMixin_rollback, hcode, ERR_NOT_SUPPORTED, ERR_NONE]
  · intro h0 hcode
    unfold rollback_via_dispatch
    rw [dispatch_request_first_wellformed env transport h0]
    simp [translateResponse, TransactionMixin_rollback, hcode, ERR_INTERNAL, ERR_NONE,
      ERR_NOT_SUPPORTED]

/-- C5 witness: code 404 is swallowed, code 500 propagates, both directly and
through a dispatch against a partner answering a well-formed 404 resp. 500
envelope. -/
theorem c5_rollback_tolerance_witness :
    TransactionMixin_rollback (.error ERR_NOT_SUPPORTED) = .ok ()
    ∧ TransactionMixin_rollback (.error 500) = .error 500
    ∧ rollback_via_dispatch true 3 (fun _ => some ⟨404, 0⟩) = .ok ()
    ∧ rollback_via_dispatch true 3 (fun _ => some ⟨500, 0⟩) = .error ERR_INTERNAL := by
  refine ⟨(c5_rollback_tolerance 500 ⟨404, 0⟩ (fun _ => some ⟨404, 0⟩)).1,
          (c5_rollback_tolerance 500 ⟨404, 0⟩ (fun _ => some ⟨404, 0⟩)).2.1 (by decide),
          (c5_rollback_tolerance 500 ⟨404, 0⟩ (fun _ => some ⟨404, 0⟩)).2.2.2.1 rfl (by decide),
          (c5_rollback_tolerance 500 ⟨500, 0⟩ (fun _ => some ⟨500, 0⟩)).2.2.2.2 rfl (by decide)⟩

/-! ## Product.search and Product.search_read -/

/-- What a search classmethod does after the CreateTextSearch step: return the
count alone, return the empty list when the count is zero, or issue one
SearchResultRequest with the given transaction id, start index, count and
result format. -/
inductive SearchOutcome where
  | countOnly (n : Int)
  | noResults
  | issued (tan : String) (offset limit : Int) (resultFormat : String)
  deriving DecidableEq, Repr

/-- Product.search: ctsCount and ctsTan are the TotalCount and TransactionID of
the CreateTextSearch response; a non-positive limit is replaced by ctsCount
before SearchResult.execute is called (ResultFormat ID_ONLY). -/
def Product_search (ctsCount : Int) (ctsTan : String) (offset limit : Int)
    (countFlag : Bool) : SearchOutcome :=
  if countFlag then .countOnly ctsCount
  else if ctsCount = 0 then .noResults
  else .issued ctsTan offset (if limit ≤ 0 then ctsCount else limit) "ID_ONLY"

/-- Product.search_read: same flow through SearchReadResult.execute
(ResultFormat ITEM_DETAIL). -/
def Product_search_read (ctsCount : Int) (ctsTan : String) (offset limit : Int)
    (countFlag : Bool) : SearchOutcome :=
  if countFlag then .countOnly ctsCount
  else if ctsCount = 0 then .noResults
  else .issued ctsTan offset (if limit ≤ 0 then ctsCount else limit) "ITEM_DETAIL"

/-- C6: Pagination substitution. With a non-zero total count, a non-positive
limit makes search and search_read issue their SearchResultRequest with Count
equal to the total count (and the rendered URL parameter list indeed carries
that Count); a positive limit is passed through unchanged. -/
theorem c6_pagination_substitution (ctsCount : Int) (tan : String)
    (offset limit : Int) :
    (ctsCount ≠ 0 → limit ≤ 0 →
       Product_search ctsCount tan offset limit false
           = .issued tan offset ctsCount "ID_ONLY"
       ∧ Product_search_read ctsCount tan offset limit false
           = .issued tan offset ctsCount "ITEM_DETAIL"
       ∧ ("Count", PyVal.i ctsCount) ∈ searchResult_get_url_args tan offset ctsCount
       ∧ ("Count", PyVal.i ctsCount) ∈ searchReadResult_get_url_args tan offset ctsCount)
    ∧ (ctsCount ≠ 0 → 0 < limit →
       Product_search ctsCount tan offset limit false
           = .issued tan offset limit "ID_ONLY"
       ∧ Product_search_read ctsCount tan offset limit false
           = .issued tan offset limit "ITEM_DETAIL") := by
  constructor
  · intro h hl
    refine ⟨?_, ?_, ?_, ?_⟩
    · simp [Product_search, h, hl]
    · simp [Product_search_read, h, hl]
    · simp [searchResult_get_url_args]
    · simp [searchReadResult_get_url_args]
  · intro h hl
    have hnl : ¬ limit ≤ 0 := by omega
    constructor
    · simp [Product_search, h, hnl]
    · simp [Product_search_read, h, hnl]

/-- C6 witness: a search with limit 0 over a transaction whose total count is 17
requests exactly 17 items. -/
theorem c6_pagination_substitution_witness :
    Product_search 17 "T" 0 0 false = .issued "T" 0 17 "ID_ONLY"
    ∧ Product_search_read 17 "T" 0 0 false = .issued "T" 0 17 "ITEM_DETAIL"
    ∧ ("Count", PyVal.i 17) ∈ searchResult_get_url_args "T" 0 17
    ∧ ("Count", PyVal.i 17) ∈ searchReadResult_get_url_args "T" 0 17 :=
  (c6_pagination_substitution 17 "T" 0 0).1 (by decide) (by decide)

/-! ## Item mapping, cardinality, raw mode -/

/-- A response item subtree, together with the value the field-mapper extracts
for Product's replacement declaration
(vco:RequestReplacement/cac:ItemReplacement/cac:ID): none when no path matches,
some text otherwise. The ident field distinguishes distinct subtrees. -/
structure Item where
  ident : Nat
  replacement : Option String
  deriving DecidableEq, Repr

/-- Truthiness of the extracted replacement value, as Python evaluates it:
None and the empty string are falsy. -/
def pyTruthy : Option String → Bool
  | none => false
  | some s => s != ""

/-- Operation._format_item: wraps the subtree in a Product and evaluates
`not product.replacement and product or None` — the product when its
replacement field is falsy, None otherwise. -/
def format_item (item : Item) : Option Item :=
  if pyTruthy item.replacement then none else some item

/-- Operation._format_items: the loop collecting the non-None results of
_format_item over the items, preserving order. -/
def format_items : List Item → List Item
  | [] => []
  | item :: rest =>
    match format_item item with
    | some p => p :: format_items rest
    | none => format_items rest

/-- Result of an operation's execute: the raw matched XML subtree(s) when
use_objects is false, the mapped entity value otherwise. -/
inductive ExecResult (α β : Type) where
  | raw (x : α)
  | mapped (y : β)
  deriving DecidableEq, Repr

def ExecResult.isRaw {α β : Type} : ExecResult α β → Bool
  | .raw _ => true
  | .mapped _ => false

/-- GetItemDetails.execute applied to the nodes matched by
/vco:GetItemDetailsResponse in the dispatched root: more than one match raises
460, no match raises 461, exactly one match returns the raw node or the mapped
product. -/
def getItemDetails_execute (use_objects : Bool) (items : List Item) :
    Except Int (ExecResult Item (Option Item)) :=
  if items.length > 1 then .error ERR_MULTIPLE_ELEMENT_FOUND
  else
    match items with
    | [] => .error ERR_ELEMENT_NOT_FOUND
    | item :: _ =>
      if use_objects = false then .ok (.raw item)
      else .ok (.mapped (format_item item))

/-- GetItemDetailsList.execute applied to the matched ItemDetail nodes. -/
def getItemDetailsList_execute (use_objects : Bool) (items : List Item) :
    ExecResult (List Item) (List Item) :=
  if use_objects = false then .raw items else .mapped (format_items items)

/-- SearchReadResult.execute applied to the matched ItemDetail nodes. -/
def searchReadResult_execute (use_objects : Bool) (items : List Item) :
    ExecResult (List Item) (List Item) :=
  if use_objects = false then .raw items else .mapped (format_items items)

/-- The Order entity wrapping a dispatched response root. -/
structure OrderEntity where
  data : Envelope
  deriving DecidableEq, Repr

/-- CreateOrder.execute: always returns Order(dispatch_request(...), ctx); it
never consults the session's use_objects flag. -/
def createOrder_execute (_use_objects : Bool) (root : Envelope) :
    ExecResult Envelope OrderEntity :=
  ExecResult.mapped ⟨root⟩

/-- C7: Single-item lookup cardinality. More than one matched node fails with
ERR_MULTIPLE_ELEMENT_FOUND (460), zero matched nodes fails with
ERR_ELEMENT_NOT_FOUND (461), exactly one matched node succeeds. -/
theorem c7_cardinality (u : Bool) (x y : Item) (rest : List Item) :
    getItemDetails_execute u (x :: y :: rest) = .error ERR_MULTIPLE_ELEMENT_FOUND
    ∧ getItemDetails_execute u [] = .error ERR_ELEMENT_NOT_FOUND
    ∧ (getItemDetails_execute u [x]).isOk = true := by
  refine ⟨?_, rfl, ?_⟩
  · have hlen : (x :: y :: rest).length > 1 := by
      simp only [List.length_cons]
      omega
    unfold getItemDetails_execute
    rw [if_pos hlen]
  · cases u <;> rfl

/-- C9: Raw-mode switch. The claim as frozen is false for order creation:
CreateOrder.execute wraps the dispatched root in an Order entity without ever
consulting the use_objects flag, so a session constructed with the raw-node
flag still receives a mapped Order, not the raw node. -/
theorem c9_counterexample :
    (createOrder_execute false ⟨200, 3⟩).isRaw = false
    ∧ createOrder_execute false ⟨200, 3⟩ = .mapped ⟨⟨200, 3⟩⟩ := by
  exact ⟨rfl, rfl⟩

/-- C9 (amended): with the raw-node flag (use_objects false), single item
lookup, batch item lookup and full-detail search results return the raw matched
node(s) instead of mapped entities; order creation is not covered by the
switch — CreateOrder.execute returns a mapped Order entity for every value of
the flag. -/
theorem c9_raw_mode (x : Item) (items : List Item) (root : Envelope) (b : Bool) :
    getItemDetails_execute false [x] = .ok (.raw x)
    ∧ getItemDetailsList_execute false items = .raw items
    ∧ searchReadResult_execute false items = .raw items
    ∧ createOrder_execute b root = .mapped ⟨root⟩ :=
  ⟨rfl, rfl, rfl, rfl⟩

theorem format_items_append (a b : List Item) :
    format_items (a ++ b) = format_items a ++ format_items b := by
  induction a with
  | nil => rfl
  | cons x t ih => cases h : format_item x <;> simp [format_items, h, ih]

theorem format_items_length (items : List Item) :
    (format_items items).length ≤ items.length := by
  induction items with
  | nil => simp [format_items]
  | cons x t ih => cases h : format_item x <;> simp [format_items, h] <;> omega

/-- C10: Implicit replacement filtering. In mapped-entity mode an item whose
replacement field is set (truthy) is silently dropped: _format_item returns
None for it, the single lookup then succeeds with None, and _format_items omits
it from the returned list — so the mapped list of the batch-lookup and
full-detail-search operations can be shorter than the number of matched
subtrees, with no error reported. -/
theorem c10_replacement_filtering (it : Item) (items pre post : List Item) :
    (pyTruthy it.replacement = true →
      format_item it = none
      ∧ getItemDetails_execute true [it] = .ok (.mapped none)
      ∧ format_items (pre ++ it :: post) = format_items pre ++ format_items post)
    ∧ (format_items items).length ≤ items.length
    ∧ getItemDetailsList_execute true items = .mapped (format_items items)
    ∧ searchReadResult_execute true items = .mapped (format_items items) := by
  refine ⟨?_, format_items_length items, rfl, rfl⟩
  intro h
  have hfi : format_item it = none := by simp [format_item, h]
  refine ⟨hfi, ?_, ?_⟩
  · simp [getItemDetails_execute, hfi]
  · rw [format_items_append]
    simp [format_items, hfi]

/-- C10 witness: a product with replacement "REPL" is dropped — the single
lookup yields None and the list mapping omits it while keeping its neighbours
(including one whose replacement is the falsy empty string). -/
theorem c10_replacement_filtering_witness :
    format_item ⟨0, some "REPL"⟩ = none
    ∧ getItemDetails_execute true [⟨0, some "REPL"⟩] = .ok (.mapped none)
    ∧ format_items ([⟨1, none⟩] ++ ⟨0, some "REPL"⟩ :: [⟨2, some ""⟩])
        = format_items [⟨1, none⟩] ++ format_items [⟨2, some ""⟩] :=
  (c10_replacement_filtering ⟨0, some "REPL"⟩ [] [⟨1, none⟩] [⟨2, some ""⟩]).1 (by decide)

/-! ## Binding-table memoization: Context._load_params -/

/-- Context._load_params: when the session already holds a binding table the call
returns at once; otherwise GetProfile().get_params() is issued — its outcome is
the discover argument — and only a successful outcome is assigned to the cache
(a raised failure skips the assignment). Returns the outcome together with the
number of capability-discovery calls issued (0 or 1). -/
def load_params (params : Option BindingTable) (discover : Except Int BindingTable) :
    Except Int (Option BindingTable) × Nat :=
  match params with
  | some _ => (.ok params, 0)
  | none =>
    match discover with
    | .ok b => (.ok (some b), 1)
    | .error e => (.error e, 1)

/-- A sequence of operation calls on one session: each call runs _load_params
first (the list holds each call's would-be discovery outcome); a failed call
leaves the cached table unchanged. Returns the final cached table and the total
number of discovery calls issued. -/
def runCalls (params : Option BindingTable) :
    List (Except Int BindingTable) → Option BindingTable × Nat
  | [] => (params, 0)
  | d :: ds =>
    let r := load_params params d
    let params1 := match r.1 with
      | .ok p => p
      | .error _ => params
    ((runCalls params1 ds).1, r.2 + (runCalls params1 ds).2)

theorem runCalls_cached (b : BindingTable) (ds : List (Except Int BindingTable)) :
    runCalls (some b) ds = (some b, 0) := by
  induction ds with
  | nil => rfl
  | cons d ds ih => simp [runCalls, load_params, ih]

/-- C8: Resolution memoization and non-caching of failure. Once a discovery
succeeded the table is cached: any number of further calls issue zero discovery
calls and keep the table; a failed discovery propagates its failure, issues one
call, leaves the table unpopulated, and the following calls behave exactly as
on a fresh session (discovery is retried). -/
theorem c8_resolution_memoization (b : BindingTable) (e : Int)
    (ds : List (Except Int BindingTable)) :
    runCalls (some b) ds = (some b, 0)
    ∧ load_params none (.error e) = (.error e, 1)
    ∧ runCalls none (.ok b :: ds) = (some b, 1)
    ∧ (runCalls none (.error e :: ds)).1 = (runCalls none ds).1
    ∧ (runCalls none (.error e :: ds)).2 = 1 + (runCalls none ds).2 := by
  refine ⟨runCalls_cached b ds, rfl, ?_, ?_, ?_⟩
  · simp [runCalls, load_params, runCalls_cached b ds]
  · simp [runCalls, load_params]
  · simp [runCalls, load_params]
